import Mathlib

/-!
Verification of the DeFi-Analytics liquidity/yield repository's
protocol-data normalization engine.

The Python sources are shallowly embedded as executable Lean definitions:

* `src/data_process.py` — `DataProcessor.aave_process_reserve_data` (the
  per-asset loop body becomes `aave_asset_record`, the loop becomes
  `processLoop`) and `DataProcessor.process_compound_market_data`
  (`process_compound_asset`).
* `src/data_fetch.py` — `DataFetcher.get_contract` (protocol dispatch).
* `src/config.py` — the `PROTOCOLS` table.

Modelling conventions:

* Python numbers (int/float) are modelled as exact rationals `ℚ`.
  `round(x, 2)` is modelled as `round2` (round-half to the nearest
  multiple of 1/100); no claim below depends on tie-breaking behaviour.
* A raw tuple element is a `Val` (string or number).
* An uncaught Python exception is modelled as `Except.error` carrying the
  exception's kind (`PyExn` for the processing code, `FetchErr` for
  `get_contract`, whose `ValueError`s are distinguished by message).
* The wall clock read by `datetime.now(timezone.utc)` is passed in as an
  explicit `now : String` argument.
-/

namespace DefiYield

/-- A Python value occurring in a raw on-chain tuple or in an output
record: a string (address, name, symbol, timestamp) or a number.
Python int/float arithmetic is modelled over the exact rationals. -/
inductive Val where
  | str : String → Val
  | num : ℚ → Val
deriving DecidableEq, Repr

/-- Kinds of uncaught Python exceptions the processing code can raise.
`data_process.py` contains no `try`/`except` and defines no custom
exception classes, so each of these propagates out of the call. -/
inductive PyExn where
  | indexError
  | typeError
  | keyError
deriving DecidableEq, Repr

/-- `DataProcessor.RAY = 10**27` (src/data_process.py line 17). -/
def RAY : ℚ := 10 ^ 27

/-- `DataProcessor.SECONDS_PER_YEAR = 31_536_000` (line 18). -/
def SECONDS_PER_YEAR : ℕ := 31536000

/-- `asset[i]` on a Python list: out-of-range raises `IndexError`. -/
def idx (a : List Val) (i : Nat) : Except PyExn Val :=
  match a.get? i with
  | some v => Except.ok v
  | none => Except.error PyExn.indexError

/-- Using a tuple element as a number: a string operand of `/`, `*`, `+`
raises `TypeError`. -/
def asNum (v : Val) : Except PyExn ℚ :=
  match v with
  | Val.num q => Except.ok q
  | Val.str _ => Except.error PyExn.typeError

/-- Python `round(x, 2)`: round to the nearest multiple of 1/100
(Python's float `round` breaks ties to even; over exact rationals we use
Mathlib's `round`, which breaks ties upward — no claim depends on ties). -/
def round2 (x : ℚ) : ℚ := (round (x * 100) : ℚ) / 100

/-- The APR→APY conversion appearing (twice, inlined) at
src/data_process.py lines 63–65 and 69–71:
`apy = ((1 + apr / SECONDS_PER_YEAR) ** SECONDS_PER_YEAR - 1) * 100`. -/
def aprToApyPercent (apr : ℚ) : ℚ :=
  ((1 + apr / (SECONDS_PER_YEAR : ℚ)) ^ SECONDS_PER_YEAR - 1) * 100

/-- The body of the `for asset in reserves` loop of
`DataProcessor.aave_process_reserve_data` (src/data_process.py lines
39–99), in source order.  Produces the per-asset output dict as an
ordered association list (Python dicts preserve insertion order). -/
def aave_asset_record (network now : String) (asset : List Val) :
    Except PyExn (List (String × Val)) := do
  let asset_address ← idx asset 0
  let asset_name ← idx asset 1
  let symbol ← idx asset 2
  let decimals ← idx asset 3
  let ltv := (← asNum (← idx asset 4)) / 100
  let liquidation_threshold := (← asNum (← idx asset 5)) / 100
  let liquidation_bonus ← idx asset 6
  let variable_borrow_index ← asNum (← idx asset 13)
  let total_scaled_variable_debt ← asNum (← idx asset 21)
  let available_liquidity ← asNum (← idx asset 20)
  let total_variable_debt := total_scaled_variable_debt * variable_borrow_index / RAY
  let tvl := total_variable_debt + available_liquidity
  let utilization_rate := if tvl > 0 then total_variable_debt / tvl else 0
  let liquidity_rate ← asNum (← idx asset 14)
  let lending_apr := liquidity_rate / RAY
  let lending_apy :=
    (((1 + lending_apr / (SECONDS_PER_YEAR : ℚ)) ^ SECONDS_PER_YEAR) - 1) * 100
  let variable_borrow_rate ← asNum (← idx asset 15)
  let variable_borrow_apr := variable_borrow_rate / RAY
  let variable_borrow_apy :=
    (((1 + variable_borrow_apr / (SECONDS_PER_YEAR : ℚ)) ^ SECONDS_PER_YEAR) - 1) * 100
  let spread := variable_borrow_apy - lending_apy
  let borrow_cap ← idx asset 36
  let supply_cap ← idx asset 37
  Except.ok [
    ("protocol", Val.str "Aave V3"),
    ("network", Val.str network),
    ("asset_address", asset_address),
    ("asset_name", asset_name),
    ("symbol", symbol),
    ("decimals", decimals),
    ("ltv_percent", Val.num (round2 ltv)),
    ("liquidation_threshold_percent", Val.num (round2 liquidation_threshold)),
    ("liquidation_bonus", liquidation_bonus),
    ("tvl", Val.num (round2 tvl)),
    ("total_variable_debt", Val.num (round2 total_variable_debt)),
    ("utilization_rate_percent", Val.num (round2 (utilization_rate * 100))),
    ("lending_apy_percent", Val.num (round2 lending_apy)),
    ("variable_borrow_apy_percent", Val.num (round2 variable_borrow_apy)),
    ("spread_percent", Val.num (round2 spread)),
    ("borrow_cap", borrow_cap),
    ("supply_cap", supply_cap),
    ("load_datetime", Val.str now)]

/-- The `for` loop accumulating `processed_data`: records are produced
front-to-back; an exception raised mid-loop propagates and the call
returns nothing (the partially built list is lost). -/
def processLoop (f : α → Except PyExn β) : List α → Except PyExn (List β)
  | [] => Except.ok []
  | a :: as => do
    let b ← f a
    let bs ← processLoop f as
    Except.ok (b :: bs)

/-- `DataProcessor.aave_process_reserve_data` (lines 24–101).  The
unpacking `reserves = raw_data[0][0]; network = raw_data[1]` is pure
packaging and is modelled by passing `reserves` and `network` directly;
the `DataFrame` of row-dicts is the list of records. -/
def aave_process_reserve_data (reserves : List (List Val))
    (network now : String) : Except PyExn (List (List (String × Val))) :=
  processLoop (aave_asset_record network now) reserves

/-- Lookup in a Python string-keyed dict, returning the first (and for
our dicts, only) binding; `none` models a missing key. -/
def dictFind : List (String × α) → String → Option α
  | [], _ => none
  | (k, v) :: rest, key => if k == key then some v else dictFind rest key

/-- `d[key]` on a Python dict: missing key raises `KeyError`. -/
def pyGetItem (d : List (String × Val)) (key : String) : Except PyExn Val :=
  match dictFind d key with
  | some v => Except.ok v
  | none => Except.error PyExn.keyError

/-- The body of the `for base_asset in base_assets` loop of
`DataProcessor.process_compound_market_data` (src/data_process.py lines
117–129).  `decimals = 10 ** base_asset["decimals"]` is modelled for
integer exponents (the only case the rational model expresses; the
repository only ever has integer token decimals). -/
def process_compound_asset (base_asset : List (String × Val)) :
    Except PyExn (List (String × Val)) := do
  let d ← asNum (← pyGetItem base_asset "decimals")
  let decimals ←
    if d.den = 1 then Except.ok ((10 : ℚ) ^ d.num)
    else Except.error PyExn.typeError
  let network ← pyGetItem base_asset "network"
  let base_asset_v ← pyGetItem base_asset "base_asset"
  let base_token ← pyGetItem base_asset "base_token"
  let reserves ← asNum (← pyGetItem base_asset "reserves")
  let total_supply ← asNum (← pyGetItem base_asset "total_supply")
  let total_borrow ← asNum (← pyGetItem base_asset "total_borrow")
  let utilization_rate ← asNum (← pyGetItem base_asset "utilization_rate")
  Except.ok [
    ("protocol", Val.str "Compound V3"),
    ("network", network),
    ("base_asset", base_asset_v),
    ("base_token", base_token),
    ("reserves", Val.num (reserves / decimals)),
    ("total_supply", Val.num (total_supply / decimals)),
    ("total_borrow", Val.num (total_borrow / decimals)),
    ("utilization_rate_percent", Val.num (utilization_rate / (10 ^ 18 : ℚ) * 100))]

/-- `DataProcessor.process_compound_market_data` (lines 103–130); the
`print` is I/O and not modelled. -/
def process_compound_market_data (raw : List (List (String × Val))) :
    Except PyExn (List (List (String × Val))) :=
  processLoop process_compound_asset raw

/-- A well-formed Aave raw reserve tuple: at least 38 elements with
numbers at every position the code uses arithmetically
(4, 5, 13, 14, 15, 20, 21).  The named fields sit at the positions
`aave_process_reserve_data` reads (see `AaveTuple.encode`); `p7`–`p35`
are the positions the code never touches, `rest` any trailing elements. -/
structure AaveTuple where
  asset_address : Val
  asset_name : Val
  symbol : Val
  decimals : Val
  ltv_raw : ℚ
  liquidation_threshold_raw : ℚ
  liquidation_bonus : Val
  p7 : Val
  p8 : Val
  p9 : Val
  p10 : Val
  p11 : Val
  p12 : Val
  variable_borrow_index : ℚ
  liquidity_rate : ℚ
  variable_borrow_rate : ℚ
  p16 : Val
  p17 : Val
  p18 : Val
  p19 : Val
  available_liquidity : ℚ
  total_scaled_variable_debt : ℚ
  p22 : Val
  p23 : Val
  p24 : Val
  p25 : Val
  p26 : Val
  p27 : Val
  p28 : Val
  p29 : Val
  p30 : Val
  p31 : Val
  p32 : Val
  p33 : Val
  p34 : Val
  p35 : Val
  borrow_cap : Val
  supply_cap : Val
  rest : List Val

/-- Lay an `AaveTuple` out as the positional raw list the contract call
returns: index 0 address, 1 name, 2 symbol, 3 decimals, 4 ltv,
5 liquidation threshold, 6 liquidation bonus, 13 variable borrow index,
14 liquidity rate, 15 variable borrow rate, 20 available liquidity,
21 total scaled variable debt, 36 borrow cap, 37 supply cap — exactly
the positions read at src/data_process.py lines 41–50, 62, 68, 75–76. -/
def AaveTuple.encode (t : AaveTuple) : List Val :=
  [t.asset_address, t.asset_name, t.symbol, t.decimals,
   Val.num t.ltv_raw, Val.num t.liquidation_threshold_raw, t.liquidation_bonus,
   t.p7, t.p8, t.p9, t.p10, t.p11, t.p12,
   Val.num t.variable_borrow_index, Val.num t.liquidity_rate,
   Val.num t.variable_borrow_rate,
   t.p16, t.p17, t.p18, t.p19,
   Val.num t.available_liquidity, Val.num t.total_scaled_variable_debt,
   t.p22, t.p23, t.p24, t.p25, t.p26, t.p27, t.p28, t.p29,
   t.p30, t.p31, t.p32, t.p33, t.p34, t.p35,
   t.borrow_cap, t.supply_cap] ++ t.rest

/-- An all-zero well-formed Aave tuple, used as a concrete test input. -/
def zeroTuple : AaveTuple where
  asset_address := Val.num 0
  asset_name := Val.num 0
  symbol := Val.num 0
  decimals := Val.num 0
  ltv_raw := 0
  liquidation_threshold_raw := 0
  liquidation_bonus := Val.num 0
  p7 := Val.num 0
  p8 := Val.num 0
  p9 := Val.num 0
  p10 := Val.num 0
  p11 := Val.num 0
  p12 := Val.num 0
  variable_borrow_index := 0
  liquidity_rate := 0
  variable_borrow_rate := 0
  p16 := Val.num 0
  p17 := Val.num 0
  p18 := Val.num 0
  p19 := Val.num 0
  available_liquidity := 0
  total_scaled_variable_debt := 0
  p22 := Val.num 0
  p23 := Val.num 0
  p24 := Val.num 0
  p25 := Val.num 0
  p26 := Val.num 0
  p27 := Val.num 0
  p28 := Val.num 0
  p29 := Val.num 0
  p30 := Val.num 0
  p31 := Val.num 0
  p32 := Val.num 0
  p33 := Val.num 0
  p34 := Val.num 0
  p35 := Val.num 0
  borrow_cap := Val.num 0
  supply_cap := Val.num 0
  rest := []

/-- The record `aave_asset_record` produces on a well-formed tuple, with
every field written out in terms of the tuple's raw values. -/
def aaveRecordOf (network now : String) (t : AaveTuple) : List (String × Val) :=
  [("protocol", Val.str "Aave V3"),
   ("network", Val.str network),
   ("asset_address", t.asset_address),
   ("asset_name", t.asset_name),
   ("symbol", t.symbol),
   ("decimals", t.decimals),
   ("ltv_percent", Val.num (round2 (t.ltv_raw / 100))),
   ("liquidation_threshold_percent",
      Val.num (round2 (t.liquidation_threshold_raw / 100))),
   ("liquidation_bonus", t.liquidation_bonus),
   ("tvl", Val.num (round2
      (t.total_scaled_variable_debt * t.variable_borrow_index / RAY +
        t.available_liquidity))),
   ("total_variable_debt", Val.num (round2
      (t.total_scaled_variable_debt * t.variable_borrow_index / RAY))),
   ("utilization_rate_percent", Val.num (round2
      ((if t.total_scaled_variable_debt * t.variable_borrow_index / RAY +
            t.available_liquidity > 0 then
          t.total_scaled_variable_debt * t.variable_borrow_index / RAY /
            (t.total_scaled_variable_debt * t.variable_borrow_index / RAY +
              t.available_liquidity)
        else 0) * 100))),
   ("lending_apy_percent",
      Val.num (round2 (aprToApyPercent (t.liquidity_rate / RAY)))),
   ("variable_borrow_apy_percent",
      Val.num (round2 (aprToApyPercent (t.variable_borrow_rate / RAY)))),
   ("spread_percent", Val.num (round2
      (aprToApyPercent (t.variable_borrow_rate / RAY) -
        aprToApyPercent (t.liquidity_rate / RAY)))),
   ("borrow_cap", t.borrow_cap),
   ("supply_cap", t.supply_cap),
   ("load_datetime", Val.str now)]

/-- The 18 field names of an Aave output record, in insertion order. -/
def aaveFieldNames : List String :=
  ["protocol", "network", "asset_address", "asset_name", "symbol",
   "decimals", "ltv_percent", "liquidation_threshold_percent",
   "liquidation_bonus", "tvl", "total_variable_debt",
   "utilization_rate_percent", "lending_apy_percent",
   "variable_borrow_apy_percent", "spread_percent", "borrow_cap",
   "supply_cap", "load_datetime"]

/-- A well-formed Compound raw market record: the named fields
`process_compound_market_data` reads, with numeric values where the code
does arithmetic and an integer decimal count. -/
structure CompoundTuple where
  decimals : ℤ
  network : Val
  base_asset : Val
  base_token : Val
  reserves : ℚ
  total_supply : ℚ
  total_borrow : ℚ
  utilization_rate : ℚ

/-- Lay a `CompoundTuple` out as the raw named-field dict. -/
def CompoundTuple.encode (c : CompoundTuple) : List (String × Val) :=
  [("decimals", Val.num (c.decimals : ℚ)),
   ("network", c.network),
   ("base_asset", c.base_asset),
   ("base_token", c.base_token),
   ("reserves", Val.num c.reserves),
   ("total_supply", Val.num c.total_supply),
   ("total_borrow", Val.num c.total_borrow),
   ("utilization_rate", Val.num c.utilization_rate)]

/-- A concrete well-formed Compound market record. -/
def sampleCompound : CompoundTuple where
  decimals := 6
  network := Val.str "ethereum"
  base_asset := Val.str "USDC"
  base_token := Val.str "0xc3d688B66703497DAA19211EEdff47f25384cdc3"
  reserves := 0
  total_supply := 0
  total_borrow := 0
  utilization_rate := 0

/-- The record `process_compound_asset` produces on a well-formed input. -/
def compoundRecordOf (c : CompoundTuple) : List (String × Val) :=
  [("protocol", Val.str "Compound V3"),
   ("network", c.network),
   ("base_asset", c.base_asset),
   ("base_token", c.base_token),
   ("reserves", Val.num (c.reserves / 10 ^ c.decimals)),
   ("total_supply", Val.num (c.total_supply / 10 ^ c.decimals)),
   ("total_borrow", Val.num (c.total_borrow / 10 ^ c.decimals)),
   ("utilization_rate_percent",
      Val.num (c.utilization_rate / (10 ^ 18 : ℚ) * 100))]

/-- The 8 field names of a Compound output record, in insertion order. -/
def compoundFieldNames : List String :=
  ["protocol", "network", "base_asset", "base_token", "reserves",
   "total_supply", "total_borrow", "utilization_rate_percent"]

/-- Delete the `load_datetime` binding from a record (used to compare two
runs of the normalizer up to the timestamp). -/
def eraseTimestamp (r : List (String × Val)) : List (String × Val) :=
  r.filter (fun p => p.1 != "load_datetime")

/-- Distinguishable `ValueError`s / uncaught exceptions that
`DataFetcher.get_contract` (src/data_fetch.py lines 27–79) can raise. -/
inductive FetchErr where
  /-- line 50: `Protocol '{protocol}' not found in config.` -/
  | protocolNotFound
  /-- line 57: `Aave requires both 'market_type' and 'contract_type'.` -/
  | aaveArgsMissing
  /-- line 62: `Compound requires both 'base_asset' and 'contract_type'.` -/
  | compoundArgsMissing
  /-- line 66: `Unsupported protocol '{protocol}'.` -/
  | unsupportedProtocol
  /-- line 69: `Contract '{contract_type}' not found for ...` -/
  | contractNotFound
  /-- uncaught `KeyError` from `config[network]` (lines 58 / 63) -/
  | pyKeyError
  /-- uncaught `TypeError` from subscripting a string address with a
  string key (`config[network][market_type]`, lines 58 / 63) -/
  | pyTypeError
deriving DecidableEq, Repr

/-- The `PROTOCOLS` table of src/config.py lines 62–74.  Note the keys
are capitalized `"Aave"` / `"Compound"`, and each value is a flat dict
mapping contract names directly to address strings. -/
def PROTOCOLS : List (String × List (String × String)) :=
  [("Aave",
     [("pool_addresses_provider", "0x2f39d218133AFaB8F2B819B1066c7E434Ad94E9e"),
      ("ui_pool_data_provider", "0x3F78BBD206e4D3c504Eb854232EdA7e47E9Fd8FC")]),
   ("Compound",
     [("ethereum_usdc_proxy", "0xc3d688B66703497DAA19211EEdff47f25384cdc3"),
      ("ethereum_usdc_implementation", "0xaeC1954467B6d823A9042E9e9D6E4F40111069a9"),
      ("ethereum_weth_proxy", "0xA17581A9E3356d9A858b789D68B4d866e593aE94")])]

/-- Python truthiness test `not x` for an optional-string argument:
`None` and the empty string are falsy. -/
def falsyStr : Option String → Bool
  | none => true
  | some s => s.isEmpty

/-- `DataFetcher.get_contract` up to contract-address resolution
(src/data_fetch.py lines 48–69; the subsequent ABI fetch and contract
construction at lines 72–79 are network I/O, and are unreachable anyway
because no address lookup can succeed, as proved below).

Faithful to the source:
* `PROTOCOLS.get(protocol)` misses for every key but `"Aave"` /
  `"Compound"` (line 48–50);
* the dispatch compares against lowercase `"aave"` / `"compound"`
  (lines 55, 60);
* in either protocol branch, `config[network][market_type]` /
  `config[network][base_asset]` subscripts a flat string→string dict:
  a missing `network` key raises `KeyError`, and a hit would yield an
  address string whose string-subscripting raises `TypeError`. -/
def get_contract (protocol network : String)
    (base_asset contract_type market_type : Option String) :
    Except FetchErr String :=
  match dictFind PROTOCOLS protocol with
  | none => Except.error FetchErr.protocolNotFound
  | some config =>
    if protocol = "aave" then
      if falsyStr market_type || falsyStr contract_type then
        Except.error FetchErr.aaveArgsMissing
      else
        match dictFind config network with
        | none => Except.error FetchErr.pyKeyError
        | some _ => Except.error FetchErr.pyTypeError
    else if protocol = "compound" then
      if falsyStr base_asset || falsyStr contract_type then
        Except.error FetchErr.compoundArgsMissing
      else
        match dictFind config network with
        | none => Except.error FetchErr.pyKeyError
        | some _ => Except.error FetchErr.pyTypeError
    else
      Except.error FetchErr.unsupportedProtocol

/-! ## Helper lemmas -/

theorem exBind_ok (a : α) (f : α → Except ε β) :
    (Except.ok a >>= f) = f a := rfl

theorem exBind_error (e : ε) (f : α → Except ε β) :
    ((Except.error e : Except ε α) >>= f) = Except.error e := rfl

theorem bindOk {x : Except ε α} {f : α → Except ε β} {r : β}
    (h : (x >>= f) = Except.ok r) : ∃ v, x = Except.ok v ∧ f v = Except.ok r := by
  cases x with
  | ok a => exact ⟨a, rfl, h⟩
  | error e => exact absurd h (by simp [exBind_error])

theorem exceptMap_bind (g : β → γ) (x : Except ε α) (f : α → Except ε β) :
    Except.map g (x >>= f) = x >>= fun a => Except.map g (f a) := by
  cases x <;> rfl

/-- On a well-formed tuple, the Aave loop body succeeds and returns the
fully written-out record. -/
theorem aave_asset_record_encode (network now : String) (t : AaveTuple) :
    aave_asset_record network now t.encode =
      Except.ok (aaveRecordOf network now t) := rfl

/-- On a well-formed named-field record, the Compound loop body succeeds
and returns the fully written-out record. -/
theorem process_compound_asset_encode (c : CompoundTuple) :
    process_compound_asset c.encode = Except.ok (compoundRecordOf c) := rfl

theorem processLoop_comp (f : α → Except PyExn β) (g : γ → α) (h : γ → β)
    (hc : ∀ c, f (g c) = Except.ok (h c)) (l : List γ) :
    processLoop f (l.map g) = Except.ok (l.map h) := by
  induction l with
  | nil => rfl
  | cons a as ih =>
    simp only [List.map_cons, processLoop, hc a, exBind_ok, ih]

theorem processLoop_ok_mem {f : α → Except PyExn β} {l : List α}
    {ys : List β} (h : processLoop f l = Except.ok ys) :
    ∀ a ∈ l, ∃ y, f a = Except.ok y := by
  induction l generalizing ys with
  | nil => intro a ha; cases ha
  | cons x xs ih =>
    intro a ha
    obtain ⟨b, hb, h⟩ := bindOk h
    obtain ⟨bs, hbs, _⟩ := bindOk h
    cases ha with
    | head => exact ⟨b, hb⟩
    | tail _ ht => exact ih hbs a ht

/-- If the Aave loop body succeeds on a raw tuple, the tuple had at
least 38 elements (the code reads index 37). -/
theorem aave_asset_record_ok_length {network now : String} {a : List Val}
    {r : List (String × Val)}
    (h : aave_asset_record network now a = Except.ok r) : 38 ≤ a.length := by
  unfold aave_asset_record at h
  obtain ⟨v0, _, h⟩ := bindOk h
  obtain ⟨v1, _, h⟩ := bindOk h
  obtain ⟨v2, _, h⟩ := bindOk h
  obtain ⟨v3, _, h⟩ := bindOk h
  obtain ⟨v4, _, h⟩ := bindOk h
  obtain ⟨q4, _, h⟩ := bindOk h
  obtain ⟨v5, _, h⟩ := bindOk h
  obtain ⟨q5, _, h⟩ := bindOk h
  obtain ⟨v6, _, h⟩ := bindOk h
  obtain ⟨v13, _, h⟩ := bindOk h
  obtain ⟨q13, _, h⟩ := bindOk h
  obtain ⟨v21, _, h⟩ := bindOk h
  obtain ⟨q21, _, h⟩ := bindOk h
  obtain ⟨v20, _, h⟩ := bindOk h
  obtain ⟨q20, _, h⟩ := bindOk h
  obtain ⟨v14, _, h⟩ := bindOk h
  obtain ⟨q14, _, h⟩ := bindOk h
  obtain ⟨v15, _, h⟩ := bindOk h
  obtain ⟨q15, _, h⟩ := bindOk h
  obtain ⟨v36, _, h⟩ := bindOk h
  obtain ⟨v37, h37, _⟩ := bindOk h
  unfold idx at h37
  cases hg : a.get? 37 with
  | none => rw [hg] at h37; exact absurd h37 (by simp)
  | some v =>
    obtain ⟨hlt, -⟩ := List.get?_eq_some.mp hg
    exact hlt

/-- `round` is monotone. -/
theorem round_le_round {x y : ℚ} (h : x ≤ y) : round x ≤ round y := by
  rw [round_eq, round_eq]
  exact Int.floor_mono (by linarith)

theorem round2_nonneg {x : ℚ} (h : 0 ≤ x) : 0 ≤ round2 x := by
  unfold round2
  have h1 : (0 : ℤ) ≤ round (x * 100) := by
    have h2 := round_le_round (by linarith : (0 : ℚ) ≤ x * 100)
    simpa using h2
  have h3 : (0 : ℚ) ≤ (round (x * 100) : ℚ) := by exact_mod_cast h1
  linarith

theorem round2_le_100 {x : ℚ} (h : x ≤ 100) : round2 x ≤ 100 := by
  unfold round2
  have h1 : round (x * 100) ≤ (10000 : ℤ) := by
    have h2 := round_le_round (by push_cast; linarith : x * 100 ≤ ((10000 : ℤ) : ℚ))
    simpa [round_intCast] using h2
  have h3 : ((round (x * 100) : ℤ) : ℚ) ≤ 10000 := by exact_mod_cast h1
  linarith

/-- The loop body depends on the wall clock only through the
`load_datetime` field: erasing that field makes two runs over the same
raw tuple literally equal (same error, or same record). -/
theorem aave_asset_record_erase (network now1 now2 : String) (a : List Val) :
    Except.map eraseTimestamp (aave_asset_record network now1 a) =
      Except.map eraseTimestamp (aave_asset_record network now2 a) := by
  unfold aave_asset_record
  simp only [exceptMap_bind]
  rfl

theorem processLoop_map_congr (g : β → γ) (f1 f2 : α → Except PyExn β)
    (hc : ∀ a, Except.map g (f1 a) = Except.map g (f2 a)) (l : List α) :
    Except.map (List.map g) (processLoop f1 l) =
      Except.map (List.map g) (processLoop f2 l) := by
  induction l with
  | nil => rfl
  | cons a as ih =>
    have ha := hc a
    simp only [processLoop]
    cases h1 : f1 a with
    | error e1 =>
      cases h2 : f2 a with
      | error e2 =>
        rw [h1, h2] at ha
        simp only [Except.map, Except.error.injEq] at ha
        rw [ha]
        rfl
      | ok b2 =>
        rw [h1, h2] at ha
        simp [Except.map] at ha
    | ok b1 =>
      cases h2 : f2 a with
      | error e2 =>
        rw [h1, h2] at ha
        simp [Except.map] at ha
      | ok b2 =>
        rw [h1, h2] at ha
        simp only [Except.map, Except.ok.injEq] at ha
        simp only [exBind_ok]
        cases h3 : processLoop f1 as with
        | error E =>
          rw [h3] at ih
          cases h4 : processLoop f2 as with
          | error E2 =>
            rw [h4] at ih
            simp only [Except.map, Except.error.injEq] at ih
            rw [ih]
            rfl
          | ok bs2 =>
            rw [h4] at ih
            simp [Except.map] at ih
        | ok bs1 =>
          rw [h3] at ih
          cases h4 : processLoop f2 as with
          | error E2 =>
            rw [h4] at ih
            simp [Except.map] at ih
          | ok bs2 =>
            rw [h4] at ih
            simp only [Except.map, Except.ok.injEq] at ih
            simp [exBind_ok, Except.map, ha, ih]

/-- A successful `PROTOCOLS.get(protocol)` forces the protocol string to
be one of the two (capitalized) configured keys. -/
theorem dictFind_protocols {p : String} {c : List (String × String)}
    (h : dictFind PROTOCOLS p = some c) : p = "Aave" ∨ p = "Compound" := by
  by_cases h1 : p = "Aave"
  · exact Or.inl h1
  · by_cases h2 : p = "Compound"
    · exact Or.inr h2
    · exfalso
      have e1 : (("Aave" : String) == p) = false := by
        rw [beq_eq_false_iff_ne]
        exact fun hh => h1 hh.symm
      have e2 : (("Compound" : String) == p) = false := by
        rw [beq_eq_false_iff_ne]
        exact fun hh => h2 hh.symm
      simp [PROTOCOLS, dictFind, e1, e2] at h

theorem util_round2_bounds {q : ℚ} (h0 : 0 ≤ q) (h1 : q ≤ 1) :
    0 ≤ round2 (q * 100) ∧ round2 (q * 100) ≤ 100 :=
  ⟨round2_nonneg (by linarith), round2_le_100 (by linarith)⟩

/-! ## Claims -/

/-- Claim C1 (amended): when any raw asset tuple in the batch is shorter
than the 38 fields the code reads, `aave_process_reserve_data` fails as a
whole — the positional read raises an uncaught exception, the loop never
finishes, and no output records at all (in particular none with missing
or garbage fields) are produced.  The original claim's skip-or-
`MalformedTupleError` behaviour does not exist in the code. -/
theorem C1_short_tuple_aborts (reserves : List (List Val)) (network now : String)
    (asset : List Val) (hmem : asset ∈ reserves) (hshort : asset.length < 38) :
    ∃ e, aave_process_reserve_data reserves network now = Except.error e := by
  cases hres : aave_process_reserve_data reserves network now with
  | error e => exact ⟨e, rfl⟩
  | ok recs =>
    exfalso
    obtain ⟨r, hr⟩ := processLoop_ok_mem hres asset hmem
    have hlen := aave_asset_record_ok_length hr
    omega

/-- Claim C1, witness: the empty tuple is a short member of a concrete
batch, and processing that batch fails. -/
theorem C1_witness :
    ([] : List Val) ∈ [([] : List Val)] ∧ ([] : List Val).length < 38 ∧
    ∃ e, aave_process_reserve_data [[]] "ethereum" "2024-01-01 00:00:00" =
      Except.error e :=
  ⟨List.mem_singleton.mpr rfl, by simp,
   C1_short_tuple_aborts [[]] "ethereum" "2024-01-01 00:00:00" []
     (List.mem_singleton.mpr rfl) (by simp)⟩

/-- Claim C1, counterexample to the claim as stated: on a batch whose
single tuple has 1 field, the call neither skips the asset nor raises a
dedicated malformed-tuple error — it terminates with an uncaught
`IndexError` and returns no records. -/
theorem C1_counterexample :
    aave_process_reserve_data [[Val.num 0]] "ethereum" "2024-01-01 00:00:00" =
      Except.error PyExn.indexError ∧
    ¬ ∃ out, aave_process_reserve_data [[Val.num 0]] "ethereum" "2024-01-01 00:00:00" =
      Except.ok out := by
  constructor
  · rfl
  · rintro ⟨out, hout⟩
    rw [show aave_process_reserve_data [[Val.num 0]] "ethereum" "2024-01-01 00:00:00" =
      Except.error PyExn.indexError from rfl] at hout
    exact absurd hout (by simp)

/-- Claim C2: the recognized identifier `"aave"` (per the function's own
docstring and its caller `aave_fetch_reserve_data`) already fails the
`PROTOCOLS` lookup, because the config keys are capitalized — and in
fact every protocol string makes `get_contract` raise: lowercase
identifiers fail the config lookup, capitalized ones fall through the
lowercase dispatch into the unsupported-protocol branch. -/
theorem C2_dispatch_always_fails :
    get_contract "aave" "ethereum" none (some "ui_pool_data_provider")
        (some "core_market") = Except.error FetchErr.protocolNotFound ∧
    ∀ protocol network base_asset contract_type market_type,
      ∃ e, get_contract protocol network base_asset contract_type market_type =
        Except.error e := by
  constructor
  · rfl
  · intro p n b c m
    unfold get_contract
    cases hc : dictFind PROTOCOLS p with
    | none => exact ⟨FetchErr.protocolNotFound, rfl⟩
    | some config =>
      rcases dictFind_protocols hc with rfl | rfl
      · simp
      · simp

/-- Claim C3 (amended): each protocol path, on well-formed input,
returns exactly one fully populated record per input asset in input
order, with the fixed field-name list of that path — but the two paths'
schemas differ (18 Aave fields vs 8 Compound fields), so the cross-path
uniform-schema clause of the original claim fails. -/
theorem C3_per_path_schema :
    (∀ (ts : List AaveTuple) (network now : String),
      aave_process_reserve_data (ts.map AaveTuple.encode) network now =
        Except.ok (ts.map (aaveRecordOf network now))) ∧
    (∀ network now t, (aaveRecordOf network now t).map Prod.fst = aaveFieldNames) ∧
    (∀ cs : List CompoundTuple,
      process_compound_market_data (cs.map CompoundTuple.encode) =
        Except.ok (cs.map compoundRecordOf)) ∧
    (∀ c, (compoundRecordOf c).map Prod.fst = compoundFieldNames) := by
  refine ⟨?_, ?_, ?_, ?_⟩
  · intro ts network now
    exact processLoop_comp _ _ _ (aave_asset_record_encode network now) ts
  · intro network now t
    rfl
  · intro cs
    exact processLoop_comp _ _ _ process_compound_asset_encode cs
  · intro c
    rfl

/-- Claim C3, counterexample to the claim as stated: concrete
well-formed inputs succeed on both paths, yet the two output records
have different field names. -/
theorem C3_counterexample :
    aave_process_reserve_data [zeroTuple.encode] "ethereum" "2024-01-01 00:00:00" =
      Except.ok [aaveRecordOf "ethereum" "2024-01-01 00:00:00" zeroTuple] ∧
    process_compound_market_data [sampleCompound.encode] =
      Except.ok [compoundRecordOf sampleCompound] ∧
    (aaveRecordOf "ethereum" "2024-01-01 00:00:00" zeroTuple).map Prod.fst ≠
      (compoundRecordOf sampleCompound).map Prod.fst := by
  refine ⟨rfl, rfl, ?_⟩
  decide

/-- Claim C4: on a well-formed tuple whose computed TVL is zero, the
guard `if tvl > 0` takes the `else 0` branch, so the output
`utilization_rate_percent` is the defined value 0 and no division by the
zero TVL is performed. -/
theorem C4_zero_tvl_utilization (network now : String) (t : AaveTuple)
    (h : t.total_scaled_variable_debt * t.variable_borrow_index / RAY +
        t.available_liquidity = 0) :
    ∃ r, aave_asset_record network now t.encode = Except.ok r ∧
      dictFind r "utilization_rate_percent" = some (Val.num 0) := by
  refine ⟨_, aave_asset_record_encode network now t, ?_⟩
  rw [show dictFind (aaveRecordOf network now t) "utilization_rate_percent" =
    some (Val.num (round2
      ((if t.total_scaled_variable_debt * t.variable_borrow_index / RAY +
            t.available_liquidity > 0 then
          t.total_scaled_variable_debt * t.variable_borrow_index / RAY /
            (t.total_scaled_variable_debt * t.variable_borrow_index / RAY +
              t.available_liquidity)
        else 0) * 100))) from rfl]
  rw [h]
  norm_num [round2]

/-- Claim C4, witness: the all-zero tuple has TVL zero and yields
utilization 0. -/
theorem C4_witness :
    (zeroTuple.total_scaled_variable_debt * zeroTuple.variable_borrow_index / RAY +
        zeroTuple.available_liquidity = 0) ∧
    ∃ r, aave_asset_record "ethereum" "2024-01-01 00:00:00" zeroTuple.encode =
        Except.ok r ∧
      dictFind r "utilization_rate_percent" = some (Val.num 0) :=
  ⟨by simp [zeroTuple],
   C4_zero_tvl_utilization "ethereum" "2024-01-01 00:00:00" zeroTuple
     (by simp [zeroTuple])⟩

/-- Claim C5: with non-negative decoded debt, index and liquidity, the
output `total_variable_debt` is (the 2-decimal rounding of)
`total_scaled_variable_debt * variable_borrow_index / RAY` with
`RAY = 10^27`, the output `tvl` is that debt plus
`available_liquidity`, and the output `utilization_rate_percent` lies
in [0, 100]. -/
theorem C5_tvl_utilization (network now : String) (t : AaveTuple)
    (h1 : 0 ≤ t.total_scaled_variable_debt) (h2 : 0 ≤ t.variable_borrow_index)
    (h3 : 0 ≤ t.available_liquidity) :
    RAY = 10 ^ 27 ∧
    ∃ r, aave_asset_record network now t.encode = Except.ok r ∧
      dictFind r "total_variable_debt" = some (Val.num (round2
        (t.total_scaled_variable_debt * t.variable_borrow_index / RAY))) ∧
      dictFind r "tvl" = some (Val.num (round2
        (t.total_scaled_variable_debt * t.variable_borrow_index / RAY +
          t.available_liquidity))) ∧
      ∃ u, dictFind r "utilization_rate_percent" = some (Val.num u) ∧
        0 ≤ u ∧ u ≤ 100 := by
  refine ⟨rfl, _, aave_asset_record_encode network now t, rfl, rfl, ?_⟩
  refine ⟨_, rfl, ?_⟩
  have htvd : 0 ≤ t.total_scaled_variable_debt * t.variable_borrow_index / RAY :=
    div_nonneg (mul_nonneg h1 h2) (by norm_num [RAY])
  by_cases hpos : t.total_scaled_variable_debt * t.variable_borrow_index / RAY +
      t.available_liquidity > 0
  · rw [if_pos hpos]
    refine util_round2_bounds (div_nonneg htvd (le_of_lt hpos)) ?_
    rw [div_le_one hpos]
    linarith
  · rw [if_neg hpos]
    exact util_round2_bounds (le_refl 0) (by norm_num)

/-- Claim C5, witness at the all-zero tuple. -/
theorem C5_witness :
    (0 ≤ zeroTuple.total_scaled_variable_debt ∧
     0 ≤ zeroTuple.variable_borrow_index ∧
     0 ≤ zeroTuple.available_liquidity) ∧
    (RAY = 10 ^ 27 ∧
    ∃ r, aave_asset_record "ethereum" "2024-01-01 00:00:00" zeroTuple.encode =
        Except.ok r ∧
      dictFind r "total_variable_debt" = some (Val.num (round2
        (zeroTuple.total_scaled_variable_debt * zeroTuple.variable_borrow_index / RAY))) ∧
      dictFind r "tvl" = some (Val.num (round2
        (zeroTuple.total_scaled_variable_debt * zeroTuple.variable_borrow_index / RAY +
          zeroTuple.available_liquidity))) ∧
      ∃ u, dictFind r "utilization_rate_percent" = some (Val.num u) ∧
        0 ≤ u ∧ u ≤ 100) :=
  ⟨⟨by simp [zeroTuple], by simp [zeroTuple], by simp [zeroTuple]⟩,
   C5_tvl_utilization "ethereum" "2024-01-01 00:00:00" zeroTuple
     (by simp [zeroTuple]) (by simp [zeroTuple]) (by simp [zeroTuple])⟩

/-- Claim C6: for every well-formed tuple the output
`lending_apy_percent` is the 2-decimal rounding of
`((1 + (liquidity_rate/RAY) / 31536000) ^ 31536000 - 1) * 100`; in
particular, a tuple with `liquidity_rate = RAY * 0.05` (5% APR) yields
exactly the rounding of `((1 + 0.05/31536000)^31536000 - 1) * 100`. -/
theorem C6_apy_formula :
    (∀ (network now : String) (t : AaveTuple),
      ∃ r, aave_asset_record network now t.encode = Except.ok r ∧
        dictFind r "lending_apy_percent" = some (Val.num (round2
          (((1 + t.liquidity_rate / RAY / (SECONDS_PER_YEAR : ℚ)) ^
            SECONDS_PER_YEAR - 1) * 100)))) ∧
    (∃ r, aave_asset_record "ethereum" "2024-01-01 00:00:00"
        (AaveTuple.encode { zeroTuple with liquidity_rate := RAY * (5 / 100) }) =
        Except.ok r ∧
      dictFind r "lending_apy_percent" = some (Val.num (round2
        (((1 + (5 / 100 : ℚ) / (SECONDS_PER_YEAR : ℚ)) ^
          SECONDS_PER_YEAR - 1) * 100)))) := by
  constructor
  · intro network now t
    exact ⟨_, aave_asset_record_encode network now t, rfl⟩
  · refine ⟨_, aave_asset_record_encode "ethereum" "2024-01-01 00:00:00"
      { zeroTuple with liquidity_rate := RAY * (5 / 100) }, ?_⟩
    have h5 : RAY * (5 / 100 : ℚ) / RAY = 5 / 100 :=
      mul_div_cancel_left₀ (5 / 100 : ℚ) (by norm_num [RAY])
    show some (Val.num (round2 (aprToApyPercent (RAY * (5 / 100) / RAY)))) = _
    rw [h5]
    rfl

/-- Claim C7: per-second compounding never loses to the simple rate —
for every non-negative APR, `aprToApyPercent apr ≥ apr * 100` — and
both the lending and the variable-borrow output fields are exactly the
2-decimal rounding of that conversion applied to the ray-descaled
rates. -/
theorem C7_apy_ge_apr :
    (∀ apr : ℚ, 0 ≤ apr → apr * 100 ≤ aprToApyPercent apr) ∧
    (∀ (network now : String) (t : AaveTuple),
      ∃ r, aave_asset_record network now t.encode = Except.ok r ∧
        dictFind r "lending_apy_percent" =
          some (Val.num (round2 (aprToApyPercent (t.liquidity_rate / RAY)))) ∧
        dictFind r "variable_borrow_apy_percent" =
          some (Val.num (round2 (aprToApyPercent (t.variable_borrow_rate / RAY))))) := by
  constructor
  · intro apr hapr
    unfold aprToApyPercent
    have hN : ((SECONDS_PER_YEAR : ℕ) : ℚ) ≠ 0 := by norm_num [SECONDS_PER_YEAR]
    have hd : 0 ≤ apr / (SECONDS_PER_YEAR : ℚ) :=
      div_nonneg hapr (by norm_num [SECONDS_PER_YEAR])
    have hb := one_add_mul_le_pow
      (a := apr / (SECONDS_PER_YEAR : ℚ)) (by linarith) SECONDS_PER_YEAR
    rw [mul_div_cancel₀ apr hN] at hb
    linarith
  · intro network now t
    exact ⟨_, aave_asset_record_encode network now t, rfl, rfl⟩

/-- Claim C7, witness at APR 0: the converted APY is not below 0·100. -/
theorem C7_witness : 0 ≤ (0 : ℚ) ∧ (0 : ℚ) * 100 ≤ aprToApyPercent 0 :=
  ⟨le_refl 0, C7_apy_ge_apr.1 0 (le_refl 0)⟩

/-- Claim C8: the raw loan-to-value and liquidation-threshold fields are
divided by 100 into percentages; in particular a raw `ltv` of 8000
decodes to an `ltv_percent` of 80. -/
theorem C8_ltv_decode :
    (∀ (network now : String) (t : AaveTuple),
      ∃ r, aave_asset_record network now t.encode = Except.ok r ∧
        dictFind r "ltv_percent" = some (Val.num (round2 (t.ltv_raw / 100))) ∧
        dictFind r "liquidation_threshold_percent" =
          some (Val.num (round2 (t.liquidation_threshold_raw / 100)))) ∧
    (∃ r, aave_asset_record "ethereum" "2024-01-01 00:00:00"
        (AaveTuple.encode { zeroTuple with ltv_raw := 8000 }) = Except.ok r ∧
      dictFind r "ltv_percent" = some (Val.num 80)) := by
  constructor
  · intro network now t
    exact ⟨_, aave_asset_record_encode network now t, rfl, rfl⟩
  · refine ⟨_, aave_asset_record_encode "ethereum" "2024-01-01 00:00:00"
      { zeroTuple with ltv_raw := 8000 }, ?_⟩
    show some (Val.num (round2 ((8000 : ℚ) / 100))) = some (Val.num 80)
    have h80 : round2 ((8000 : ℚ) / 100) = 80 := by
      unfold round2
      norm_num
    rw [h80]

/-- Claim C9: two runs of the normalizer on identical raw input differ
at most in the `load_datetime` field — after deleting that field from
every record, the two results (including any error) are equal. -/
theorem C9_determinism (reserves : List (List Val)) (network now1 now2 : String) :
    Except.map (List.map eraseTimestamp)
        (aave_process_reserve_data reserves network now1) =
      Except.map (List.map eraseTimestamp)
        (aave_process_reserve_data reserves network now2) := by
  unfold aave_process_reserve_data
  exact processLoop_map_congr _ _ _
    (aave_asset_record_erase network now1 now2) reserves

/-- Claim C10: `decimals`, `liquidation_bonus`, `borrow_cap` and
`supply_cap` are copied into the output verbatim (no scaling, no
division, no rounding), while the derived numeric fields are rounded
exactly once at record assembly from unrounded intermediates — in
particular `spread_percent` is the rounding of the difference of the two
unrounded APYs, and `tvl` the rounding of the unrounded sum. -/
theorem C10_verbatim_and_single_rounding (network now : String) (t : AaveTuple) :
    ∃ r, aave_asset_record network now t.encode = Except.ok r ∧
      dictFind r "decimals" = some t.decimals ∧
      dictFind r "liquidation_bonus" = some t.liquidation_bonus ∧
      dictFind r "borrow_cap" = some t.borrow_cap ∧
      dictFind r "supply_cap" = some t.supply_cap ∧
      dictFind r "spread_percent" = some (Val.num (round2
        (aprToApyPercent (t.variable_borrow_rate / RAY) -
          aprToApyPercent (t.liquidity_rate / RAY)))) ∧
      dictFind r "tvl" = some (Val.num (round2
        (t.total_scaled_variable_debt * t.variable_borrow_index / RAY +
          t.available_liquidity))) :=
  ⟨_, aave_asset_record_encode network now t, rfl, rfl, rfl, rfl, rfl, rfl⟩

end DefiYield
